import Mathlib

/-!
Shallow embedding of src/main.py, an incident-reporting backend.

Conventions used throughout:
* Python strings are Lean String, Python bytes are List Nat (one Nat < 256 per byte).
* A SQLAlchemy row of the incidencias table is the structure Incidencia; the
  sqlite table is the list inside DbState, in insertion order.
* The upload area of the filesystem is FsState, a list of (path, bytes)
  pairs with the newest write first.
* uuid4() is modelled by a generator parameter gen : Nat → String together
  with an index; a call site that consumes several uuids uses successive
  indices.
* Raising an exception that the handler turns into an HTTP 400/404 response
  is modelled by Except.error carrying the detail string.
* datetime.date is PyDate.  The pydantic field declaration
  fecha_emision: Optional[date] = date.today() evaluates date.today() once,
  at module import; mkIncidenciaCreate takes that import-time date as its
  explicit startupDate argument.
-/

/-- Python date value (datetime.date). -/
structure PyDate where
  year : Nat
  month : Nat
  day : Nat
deriving DecidableEq

/-- Values that can appear inside the untyped ubicacion dict of a request
body (the JSON scalars pydantic delivers for Optional[dict]). -/
inductive PyVal where
  | vNone : PyVal
  | vStr : String → PyVal
  | vInt : Int → PyVal
deriving DecidableEq

/-- Python truthiness for a ubicacion dict value: None, 0 and "" are falsy. -/
def pyTruthy : PyVal → Bool
  | .vNone => false
  | .vStr s => !(s == "")
  | .vInt n => !(n == 0)

/-- Python str() on a ubicacion dict value. -/
def pyStr : PyVal → String
  | .vNone => "None"
  | .vStr s => s
  | .vInt n => toString n

/-- Python dict.get(k) with default None. -/
def dictGet (d : List (String × PyVal)) (k : String) : PyVal :=
  match d.find? (fun p => p.1 == k) with
  | some p => p.2
  | none => .vNone

/-- Truthiness of the Optional[dict] ubicacion: None and the empty dict are
falsy. -/
def ubicTruthy : Option (List (String × PyVal)) → Bool
  | none => false
  | some d => !d.isEmpty

/-- Truthiness of an Optional[str]: None and "" are falsy. -/
def optTruthy : Option String → Bool
  | none => false
  | some s => !(s == "")

/-- Left-pads the decimal rendering of n with zeros to width w. -/
def zeroPad (w : Nat) (n : Nat) : String :=
  let s := toString n
  if s.length < w then String.mk (List.replicate (w - s.length) '0') ++ s else s

/-- strftime with format "%Y-%m-%d" on a date. -/
def strftimeYmd (d : PyDate) : String :=
  zeroPad 4 d.year ++ "-" ++ zeroPad 2 d.month ++ "-" ++ zeroPad 2 d.day

/-- Numeric value of a list of decimal digit characters. -/
def digitsVal (l : List Char) : Nat :=
  l.foldl (fun a c => a * 10 + (c.toNat - 48)) 0

/-- Value of a successfully parsed CPython float: a finite value (kept as an
exact rational rather than rounded to binary64), a signed infinity, or nan. -/
inductive PyFloatVal where
  | finite : Rat → PyFloatVal
  | inf : Bool → PyFloatVal
  | nan : PyFloatVal
deriving DecidableEq

/-- ASCII whitespace stripped by CPython float() (Py_ISSPACE). -/
def isPySpace (c : Char) : Bool :=
  c == ' ' || c == '\t' || c == '\n' || c == '\r' || c == '\x0b' || c == '\x0c'

def stripPySpace (l : List Char) : List Char :=
  ((l.dropWhile isPySpace).reverse.dropWhile isPySpace).reverse

/-- PEP 515 underscore handling of CPython float(): an underscore is dropped
when it sits between two digits and is an error otherwise (an underscore not
directly preceded by a digit is kept and later rejected by the grammar). -/
def remUnderscores : List Char → Option (List Char)
  | [] => some []
  | d :: '_' :: rest =>
    if d.isDigit then
      match rest with
      | e :: _ => if e.isDigit then (remUnderscores rest).map (fun t => d :: t) else none
      | [] => none
    else none
  | c :: rest => (remUnderscores rest).map (fun t => c :: t)

/-- Exponent part of a float literal after the e/E marker: optional sign and
a nonempty digit run; the value is the power of ten it denotes. -/
def parseExp (l : List Char) : Option Rat :=
  let p : Bool × List Char :=
    match l with
    | '-' :: rest => (true, rest)
    | '+' :: rest => (false, rest)
    | _ => (false, l)
  if !p.2.isEmpty && p.2.all (fun c => c.isDigit) then
    some (if p.1 then ((10 : Rat) ^ digitsVal p.2)⁻¹ else (10 : Rat) ^ digitsVal p.2)
  else none

/-- Unsigned decimal float literal: digits with optional fraction, or a
fraction alone, with at least one digit, and an optional e/E exponent. -/
def parseDec (l : List Char) : Option Rat :=
  let ip := l.takeWhile (fun c => c.isDigit)
  let r1 := l.dropWhile (fun c => c.isDigit)
  match r1 with
  | [] => if ip.isEmpty then none else some (digitsVal ip : Rat)
  | '.' :: r2 =>
    let fp := r2.takeWhile (fun c => c.isDigit)
    let r3 := r2.dropWhile (fun c => c.isDigit)
    if ip.isEmpty && fp.isEmpty then none
    else
      let mant : Rat :=
        ((digitsVal ip * 10 ^ fp.length + digitsVal fp : Nat) : Rat) / (10 : Rat) ^ fp.length
      match r3 with
      | [] => some mant
      | e :: r4 =>
        if e == 'e' || e == 'E' then (parseExp r4).map (fun ex => mant * ex) else none
  | e :: r2 =>
    if (e == 'e' || e == 'E') && !ip.isEmpty then
      (parseExp r2).map (fun ex => (digitsVal ip : Rat) * ex)
    else none

/-- Modelled from CPython float() applied to a str: strip ASCII whitespace,
then an optional sign followed by a case-insensitive inf/infinity/nan or by
a decimal literal with PEP 515 underscores, an optional fraction and an
optional exponent; none models the ValueError on anything else.  Finite
values are kept as exact rationals.  CPython additionally transliterates
non-ASCII decimal digits and Unicode whitespace before parsing; such
non-ASCII inputs are outside this model. -/
def pyFloat (s : String) : Option PyFloatVal :=
  let l := stripPySpace s.data
  let p : Bool × List Char :=
    match l with
    | '-' :: rest => (true, rest)
    | '+' :: rest => (false, rest)
    | _ => (false, l)
  let low := p.2.map Char.toLower
  if low == "inf".data || low == "infinity".data then some (.inf p.1)
  else if low == "nan".data then some PyFloatVal.nan
  else
    match remUnderscores p.2 with
    | none => none
    | some cleaned =>
      match parseDec cleaned with
      | none => none
      | some q => some (.finite (if p.1 then -q else q))

/-- Row of the incidencias table (class Incidencia in main.py). -/
structure Incidencia where
  id_incidencia : String
  id_usuario_emisor : String
  id_catalogo : String
  subcategoria : String
  asunto : String
  descripcion : String
  imagen : Option String
  video : Option String
  audio : Option String
  fecha_emision : PyDate
  ubicacion_lat : Option String
  ubicacion_lng : Option String
  status : String
deriving DecidableEq

/-- Pydantic request model IncidenciaCreate after validation. -/
structure IncidenciaCreate where
  id_usuario_emisor : String
  id_catalogo : String
  subcategoria : String
  asunto : String
  descripcion : String
  fecha_emision : Option PyDate
  imagen : Option String
  video : Option String
  audio : Option String
  ubicacion : Option (List (String × PyVal))
deriving DecidableEq

/-- Builds the validated IncidenciaCreate from a request body.  The outer
Option of fecha is presence of the field in the request; an omitted field
receives the class-level default, which is date.today() evaluated once at
module import (startupDate), not at request time. -/
def mkIncidenciaCreate (startupDate : PyDate)
    (emisor catalogo subcat asunto desc : String)
    (fecha : Option (Option PyDate)) (imagen video audio : Option String)
    (ubicacion : Option (List (String × PyVal))) : IncidenciaCreate :=
  { id_usuario_emisor := emisor
    id_catalogo := catalogo
    subcategoria := subcat
    asunto := asunto
    descripcion := desc
    fecha_emision := fecha.getD (some startupDate)
    imagen := imagen
    video := video
    audio := audio
    ubicacion := ubicacion }

/-- Pydantic response model IncidenciaResponse; the ubicacion dict with keys
lat and lng is modelled as a pair of parsed float values. -/
structure IncidenciaResponse where
  id_incidencia : String
  id_usuario_emisor : String
  id_catalogo : String
  subcategoria : String
  asunto : String
  descripcion : String
  imagen : Option String
  video : Option String
  audio : Option String
  fecha_emision : String
  ubicacion : Option (PyFloatVal × PyFloatVal)
  status : String
deriving DecidableEq

/-- The incidencias table, rows in insertion order. -/
structure DbState where
  incidencias : List Incidencia
deriving DecidableEq

/-- Filesystem under the upload area: (path, bytes) pairs, newest first. -/
structure FsState where
  files : List (String × List Nat)
deriving DecidableEq

/-- Python str.split(sep, 1) on a single-character separator, on char
lists: the part before the first occurrence and everything after it; none
when the separator does not occur. -/
def splitFirstAux (c : Char) : List Char → Option (List Char × List Char)
  | [] => none
  | x :: xs =>
    if x = c then some ([], xs)
    else (splitFirstAux c xs).map (fun p => (x :: p.1, p.2))

/-- Python str.split(sep, 1), packaged for strings. -/
def splitFirst (c : Char) (s : String) : Option (String × String) :=
  (splitFirstAux c s.data).map (fun p => (String.mk p.1, String.mk p.2))

/-- Python s.split(sep)[0] for a single-character separator: the text before
the first occurrence, or all of s when the separator does not occur. -/
def takeUntil (c : Char) (s : String) : String :=
  match splitFirst c s with
  | some p => p.1
  | none => s

/-- Python s.split(sep)[1] for a single-character separator: the text
between the first and second occurrence; none models the IndexError raised
when the separator does not occur. -/
def splitIndexOne (c : Char) (s : String) : Option String :=
  (splitFirst c s).map (fun p => takeUntil c p.2)

/-- Index of a character in the standard base64 alphabet. -/
def b64Val (c : Char) : Option Nat :=
  if 'A' ≤ c ∧ c ≤ 'Z' then some (c.toNat - 65)
  else if 'a' ≤ c ∧ c ≤ 'z' then some (c.toNat - 97 + 26)
  else if '0' ≤ c ∧ c ≤ '9' then some (c.toNat - 48 + 52)
  else if c = '+' then some 62
  else if c = '/' then some 63
  else none

/-- Characters base64.b64decode(validate=False) keeps: the alphabet and
padding; everything else is discarded before decoding. -/
def b64Keep (c : Char) : Bool := (b64Val c).isSome || c == '='

/-- Decodes four-character base64 groups; padding may only close the final
group; none models binascii.Error (incorrect padding or stray padding). -/
def b64DecodeGroups : List Char → Option (List Nat)
  | [] => some []
  | a :: b :: c :: d :: rest =>
    match b64Val a, b64Val b with
    | some va, some vb =>
      if c = '=' then
        if d = '=' ∧ rest = [] then some [va * 4 + vb / 16] else none
      else
        match b64Val c with
        | some vc =>
          if d = '=' then
            if rest = [] then some [va * 4 + vb / 16, vb % 16 * 16 + vc / 4] else none
          else
            match b64Val d with
            | some vd =>
              (b64DecodeGroups rest).map
                (fun tl => (va * 4 + vb / 16) :: (vb % 16 * 16 + vc / 4) :: (vc % 4 * 64 + vd) :: tl)
            | none => none
        | none => none
    | _, _ => none
  | _ => none

/-- Modelled from base64.b64decode with validate=False as save_base64_file
calls it: characters outside the alphabet and padding are discarded, then
the remainder is decoded in four-character groups. -/
def b64decode (s : String) : Option (List Nat) :=
  b64DecodeGroups (s.data.filter b64Keep)

/-- Character at index e of the standard base64 alphabet (for e < 64). -/
def b64Char (e : Nat) : Char :=
  if e < 26 then Char.ofNat (65 + e)
  else if e < 52 then Char.ofNat (97 + (e - 26))
  else if e < 62 then Char.ofNat (48 + (e - 52))
  else if e = 62 then '+'
  else '/'

/-- Standard base64 encoding of a byte list, with padding; used to state
what a well-formed payload body is. -/
def b64EncodeList : List Nat → List Char
  | [] => []
  | [a] => [b64Char (a / 4), b64Char (a % 4 * 16), '=', '=']
  | [a, b] => [b64Char (a / 4), b64Char (a % 4 * 16 + b / 16), b64Char (b % 16 * 4), '=']
  | a :: b :: c :: rest =>
    b64Char (a / 4) :: b64Char (a % 4 * 16 + b / 16) ::
      b64Char (b % 16 * 4 + c / 64) :: b64Char (c % 64) :: b64EncodeList rest

def b64encode (bs : List Nat) : String := String.mk (b64EncodeList bs)

/-- Modelled from mimetypes.guess_extension for MIME types relevant here;
the stdlib table is much larger and version-dependent; unknown types give
none, which save_base64_file replaces by ".bin". -/
def guess_extension (mime : String) : Option String :=
  if mime == "image/png" then some ".png"
  else if mime == "image/jpeg" then some ".jpg"
  else if mime == "image/gif" then some ".gif"
  else if mime == "video/mp4" then some ".mp4"
  else if mime == "video/webm" then some ".webm"
  else if mime == "audio/mpeg" then some ".mp3"
  else if mime == "audio/ogg" then some ".ogg"
  else none

def UPLOAD_DIR : String := "./uploads"

/-- os.path.join for the shapes used here: left part nonempty without a
trailing slash, right part relative. -/
def posixJoin (a b : String) : String := a ++ "/" ++ b

/-- os.path.basename for paths without a trailing slash. -/
def basename (s : String) : String :=
  String.mk ((s.data.reverse.takeWhile (fun c => !(c == '/'))).reverse)

/-- save_base64_file from main.py.  The uuid4() file-name stem is the uuid
argument; the ValueError re-raised by the except branch is Except.error.
Every error exit happens before the filesystem write. -/
def save_base64_file (uuid : String) (base64_data : String) (upload_dir : String)
    (fs : FsState) : Except String (String × FsState) :=
  match splitFirst ',' base64_data with
  | none => .error "Error procesando archivo: not enough values to unpack (expected 2, got 1)"
  | some hd =>
    match splitIndexOne ':' hd.1 with
    | none => .error "Error procesando archivo: list index out of range"
    | some afterColon =>
      let mime_type := takeUntil ';' afterColon
      let extension := (guess_extension mime_type).getD ".bin"
      match b64decode hd.2 with
      | none => .error "Error procesando archivo: Invalid base64-encoded string"
      | some file_data =>
        let file_name := uuid ++ extension
        let file_path := posixJoin upload_dir file_name
        .ok (file_path, FsState.mk ((file_path, file_data) :: fs.files))

/-- One media step of create_incidencia: the guard `if incidencia.<field>:`
plus the save_base64_file call.  A falsy field (None or the empty string)
leaves the reference null and touches nothing. -/
def processMedia (uuid : String) (payload : Option String) (dir : String)
    (fs : FsState) : Except String (Option String × FsState) :=
  match payload with
  | none => .ok (none, fs)
  | some s =>
    if s = "" then .ok (none, fs)
    else
      match save_base64_file uuid s dir fs with
      | .error e => .error e
      | .ok pe => .ok (some pe.1, pe.2)

/-- One coordinate of create_incidencia:
`incidencia.ubicacion.get(k) if incidencia.ubicacion else None` followed by
`str(v) if v else None`. -/
def coordStr (ubic : Option (List (String × PyVal))) (k : String) : Option String :=
  let v := if ubicTruthy ubic then dictGet (ubic.getD []) k else PyVal.vNone
  if pyTruthy v then some (pyStr v) else none

/-- create_incidencia from main.py.  gen supplies the uuid4() results:
gen n, gen (n+1), gen (n+2) for the image/video/audio file names and
gen (n+3) for the row id (the column default applied at insert).  The first
component is the HTTP outcome (ok carries the message and the new id, error
is the 400 detail), the second the report store after commit or rollback,
the third the upload-area filesystem; on failure the store is rolled back
but files already written remain on disk. -/
def create_incidencia (gen : Nat → String) (n : Nat) (incidencia : IncidenciaCreate)
    (db : DbState) (fs : FsState) :
    Except String (String × String) × DbState × FsState :=
  match processMedia (gen n) incidencia.imagen (posixJoin UPLOAD_DIR "images") fs with
  | .error e => (.error e, db, fs)
  | .ok ri =>
    match processMedia (gen (n + 1)) incidencia.video (posixJoin UPLOAD_DIR "videos") ri.2 with
    | .error e => (.error e, db, ri.2)
    | .ok rv =>
      match processMedia (gen (n + 2)) incidencia.audio (posixJoin UPLOAD_DIR "audios") rv.2 with
      | .error e => (.error e, db, rv.2)
      | .ok ra =>
        match incidencia.fecha_emision with
        | none => (.error "NOT NULL constraint failed: incidencias.fecha_emision", db, ra.2)
        | some fecha =>
          let row : Incidencia :=
            { id_incidencia := gen (n + 3)
              id_usuario_emisor := incidencia.id_usuario_emisor
              id_catalogo := incidencia.id_catalogo
              subcategoria := incidencia.subcategoria
              asunto := incidencia.asunto
              descripcion := incidencia.descripcion
              imagen := ri.1
              video := rv.1
              audio := ra.1
              fecha_emision := fecha
              ubicacion_lat := coordStr incidencia.ubicacion "lat"
              ubicacion_lng := coordStr incidencia.ubicacion "lng"
              status := "pending" }
          (.ok ("Incidencia creada correctamente", row.id_incidencia),
            DbState.mk (db.incidencias ++ [row]), ra.2)

/-- Shared fields of one element of the response list comprehension in
list_incidencias: media references rewritten against the base URL, the date
formatted as ISO, and the given reconstructed location. -/
def baseResponse (base_url : String) (inc : Incidencia)
    (ubic : Option (PyFloatVal × PyFloatVal)) : IncidenciaResponse :=
  { id_incidencia := inc.id_incidencia
    id_usuario_emisor := inc.id_usuario_emisor
    id_catalogo := inc.id_catalogo
    subcategoria := inc.subcategoria
    asunto := inc.asunto
    descripcion := inc.descripcion
    imagen := if optTruthy inc.imagen then
        some (base_url ++ "uploads/" ++ basename (inc.imagen.getD "")) else none
    video := if optTruthy inc.video then
        some (base_url ++ "uploads/" ++ basename (inc.video.getD "")) else none
    audio := if optTruthy inc.audio then
        some (base_url ++ "uploads/" ++ basename (inc.audio.getD "")) else none
    fecha_emision := strftimeYmd inc.fecha_emision
    ubicacion := ubic
    status := inc.status }

/-- One element of the list comprehension in list_incidencias.  float() on a
coordinate string that does not parse raises ValueError, which aborts the
whole listing; that is the Except.error case. -/
def toResponse (base_url : String) (inc : Incidencia) :
    Except String IncidenciaResponse :=
  if optTruthy inc.ubicacion_lat && optTruthy inc.ubicacion_lng then
    match pyFloat (inc.ubicacion_lat.getD ""), pyFloat (inc.ubicacion_lng.getD "") with
    | some la, some ln => .ok (baseResponse base_url inc (some (la, ln)))
    | _, _ => .error "could not convert string to float"
  else .ok (baseResponse base_url inc none)

/-- The query of the filter-capable GET /incidencias/ handler: the optional
integer id_usuario is applied only when truthy (`if id_usuario:` skips the
filter for None and for 0); sqlite compares the TEXT-affinity column with
the integer parameter by converting the integer to its decimal text. -/
def queryIncidencias (id_usuario : Option Int) (db : DbState) : List Incidencia :=
  match id_usuario with
  | none => db.incidencias
  | some u =>
    if u == 0 then db.incidencias
    else db.incidencias.filter (fun i => i.id_usuario_emisor == toString u)

/-- list_incidencias from main.py (the second, filter-capable definition,
which the spec designates as the authoritative one). -/
def list_incidencias (base_url : String) (id_usuario : Option Int) (db : DbState) :
    Except String (List IncidenciaResponse) :=
  (queryIncidencias id_usuario db).mapM (toResponse base_url)

/-- Effect of fetching .first() by id through the ORM, assigning status and
committing: the first row with the id gets the new status. -/
def setStatusFirst (id new : String) : List Incidencia → List Incidencia
  | [] => []
  | i :: rest =>
    if i.id_incidencia = id then { i with status := new } :: rest
    else i :: setStatusFirst id new rest

/-- update_incidencia_status from main.py: 404 when no row has the id
(store unchanged), otherwise overwrite status and commit. -/
def update_incidencia_status (id new : String) (db : DbState) :
    Except String String × DbState :=
  match db.incidencias.find? (fun i => i.id_incidencia == id) with
  | none => (.error "Incidencia no encontrada", db)
  | some _ =>
    (.ok ("Estado de incidencia cambiado a " ++ new),
      DbState.mk (setStatusFirst id new db.incidencias))

/-- A plain stored report used by concrete instantiations below. -/
def sampleInc (i u : String) : Incidencia :=
  { id_incidencia := i
    id_usuario_emisor := u
    id_catalogo := "c"
    subcategoria := "s"
    asunto := "a"
    descripcion := "d"
    imagen := none
    video := none
    audio := none
    fecha_emision := ⟨2024, 1, 1⟩
    ubicacion_lat := none
    ubicacion_lng := none
    status := "pending" }

/-! Helper lemmas about strings and splitting. -/

theorem strData_append (a b : String) : (a ++ b).data = a.data ++ b.data := by
  cases a
  cases b
  rfl

theorem strMk_data (s : String) : String.mk s.data = s := by
  cases s
  rfl

theorem splitFirstAux_of_not_mem {c : Char} :
    ∀ {l : List Char}, c ∉ l → splitFirstAux c l = none := by
  intro l h
  induction l with
  | nil => rfl
  | cons x xs ih =>
    simp only [List.mem_cons, not_or] at h
    have hxc : ¬x = c := fun he => h.1 he.symm
    simp only [splitFirstAux, if_neg hxc, ih h.2, Option.map_none']

theorem splitFirstAux_append {c : Char} {l1 l2 : List Char} (h : c ∉ l1) :
    splitFirstAux c (l1 ++ c :: l2) = some (l1, l2) := by
  induction l1 with
  | nil => simp [splitFirstAux]
  | cons x xs ih =>
    simp only [List.mem_cons, not_or] at h
    have hxc : ¬x = c := fun he => h.1 he.symm
    simp only [List.cons_append, splitFirstAux, if_neg hxc, List.append_eq, ih h.2,
      Option.map_some']

theorem splitFirst_of_not_mem {c : Char} {s : String} (h : c ∉ s.data) :
    splitFirst c s = none := by
  simp [splitFirst, splitFirstAux_of_not_mem h]

theorem takeUntil_of_not_mem {c : Char} {s : String} (h : c ∉ s.data) :
    takeUntil c s = s := by
  simp [takeUntil, splitFirst_of_not_mem h]

/-! Base64 roundtrip: the decoder inverts the standard encoding. -/

theorem b64Val_b64Char : ∀ e, e < 64 → b64Val (b64Char e) = some e := by decide

theorem b64Char_ne_pad : ∀ e, e < 64 → ¬b64Char e = '=' := by decide

theorem b64Keep_b64Char {e : Nat} (h : e < 64) : b64Keep (b64Char e) = true := by
  simp [b64Keep, b64Val_b64Char e h]

theorem b64Filter_encode : ∀ bs : List Nat, (∀ b ∈ bs, b < 256) →
    (b64EncodeList bs).filter b64Keep = b64EncodeList bs
  | [], _ => rfl
  | [a], h => by
    have ha : a < 256 := h a (by simp)
    have k1 : b64Keep (b64Char (a / 4)) = true := b64Keep_b64Char (by omega)
    have k2 : b64Keep (b64Char (a % 4 * 16)) = true := b64Keep_b64Char (by omega)
    have kp : b64Keep '=' = true := rfl
    simp [b64EncodeList, List.filter_cons, k1, k2, kp]
  | [a, b], h => by
    have ha : a < 256 := h a (by simp)
    have hb : b < 256 := h b (by simp)
    have k1 : b64Keep (b64Char (a / 4)) = true := b64Keep_b64Char (by omega)
    have k2 : b64Keep (b64Char (a % 4 * 16 + b / 16)) = true := b64Keep_b64Char (by omega)
    have k3 : b64Keep (b64Char (b % 16 * 4)) = true := b64Keep_b64Char (by omega)
    have kp : b64Keep '=' = true := rfl
    simp [b64EncodeList, List.filter_cons, k1, k2, k3, kp]
  | a :: b :: c :: x :: rest, h => by
    have ha : a < 256 := h a (by simp)
    have hb : b < 256 := h b (by simp)
    have hc : c < 256 := h c (by simp)
    have k1 : b64Keep (b64Char (a / 4)) = true := b64Keep_b64Char (by omega)
    have k2 : b64Keep (b64Char (a % 4 * 16 + b / 16)) = true := b64Keep_b64Char (by omega)
    have k3 : b64Keep (b64Char (b % 16 * 4 + c / 64)) = true := b64Keep_b64Char (by omega)
    have k4 : b64Keep (b64Char (c % 64)) = true := b64Keep_b64Char (by omega)
    have ih := b64Filter_encode (x :: rest) (fun y hy => h y (by simp at hy ⊢; tauto))
    simp [b64EncodeList, List.filter_cons, k1, k2, k3, k4, ih]
  | [a, b, c], h => by
    have ha : a < 256 := h a (by simp)
    have hb : b < 256 := h b (by simp)
    have hc : c < 256 := h c (by simp)
    have k1 : b64Keep (b64Char (a / 4)) = true := b64Keep_b64Char (by omega)
    have k2 : b64Keep (b64Char (a % 4 * 16 + b / 16)) = true := b64Keep_b64Char (by omega)
    have k3 : b64Keep (b64Char (b % 16 * 4 + c / 64)) = true := b64Keep_b64Char (by omega)
    have k4 : b64Keep (b64Char (c % 64)) = true := b64Keep_b64Char (by omega)
    simp [b64EncodeList, List.filter_cons, k1, k2, k3, k4]

theorem b64DecodeGroups_encode : ∀ bs : List Nat, (∀ b ∈ bs, b < 256) →
    b64DecodeGroups (b64EncodeList bs) = some bs
  | [], _ => rfl
  | [a], h => by
    have ha : a < 256 := h a (by simp)
    have k1 : b64Val (b64Char (a / 4)) = some (a / 4) := b64Val_b64Char _ (by omega)
    have k2 : b64Val (b64Char (a % 4 * 16)) = some (a % 4 * 16) := b64Val_b64Char _ (by omega)
    simp [b64EncodeList, b64DecodeGroups, k1, k2]
    omega
  | [a, b], h => by
    have ha : a < 256 := h a (by simp)
    have hb : b < 256 := h b (by simp)
    have k1 : b64Val (b64Char (a / 4)) = some (a / 4) := b64Val_b64Char _ (by omega)
    have k2 : b64Val (b64Char (a % 4 * 16 + b / 16)) = some (a % 4 * 16 + b / 16) :=
      b64Val_b64Char _ (by omega)
    have k3 : b64Val (b64Char (b % 16 * 4)) = some (b % 16 * 4) := b64Val_b64Char _ (by omega)
    have n3 : ¬b64Char (b % 16 * 4) = '=' := b64Char_ne_pad _ (by omega)
    simp [b64EncodeList, b64DecodeGroups, k1, k2, k3, n3]
    constructor
    · omega
    · omega
  | [a, b, c], h => by
    have ha : a < 256 := h a (by simp)
    have hb : b < 256 := h b (by simp)
    have hc : c < 256 := h c (by simp)
    have k1 : b64Val (b64Char (a / 4)) = some (a / 4) := b64Val_b64Char _ (by omega)
    have k2 : b64Val (b64Char (a % 4 * 16 + b / 16)) = some (a % 4 * 16 + b / 16) :=
      b64Val_b64Char _ (by omega)
    have k3 : b64Val (b64Char (b % 16 * 4 + c / 64)) = some (b % 16 * 4 + c / 64) :=
      b64Val_b64Char _ (by omega)
    have k4 : b64Val (b64Char (c % 64)) = some (c % 64) := b64Val_b64Char _ (by omega)
    have n3 : ¬b64Char (b % 16 * 4 + c / 64) = '=' := b64Char_ne_pad _ (by omega)
    have n4 : ¬b64Char (c % 64) = '=' := b64Char_ne_pad _ (by omega)
    simp [b64EncodeList, b64DecodeGroups, k1, k2, k3, k4, n3, n4]
    refine ⟨by omega, by omega, by omega⟩
  | a :: b :: c :: x :: rest, h => by
    have ha : a < 256 := h a (by simp)
    have hb : b < 256 := h b (by simp)
    have hc : c < 256 := h c (by simp)
    have k1 : b64Val (b64Char (a / 4)) = some (a / 4) := b64Val_b64Char _ (by omega)
    have k2 : b64Val (b64Char (a % 4 * 16 + b / 16)) = some (a % 4 * 16 + b / 16) :=
      b64Val_b64Char _ (by omega)
    have k3 : b64Val (b64Char (b % 16 * 4 + c / 64)) = some (b % 16 * 4 + c / 64) :=
      b64Val_b64Char _ (by omega)
    have k4 : b64Val (b64Char (c % 64)) = some (c % 64) := b64Val_b64Char _ (by omega)
    have n3 : ¬b64Char (b % 16 * 4 + c / 64) = '=' := b64Char_ne_pad _ (by omega)
    have n4 : ¬b64Char (c % 64) = '=' := b64Char_ne_pad _ (by omega)
    have ih := b64DecodeGroups_encode (x :: rest) (fun y hy => h y (by simp at hy ⊢; tauto))
    simp [b64EncodeList, b64DecodeGroups, k1, k2, k3, k4, n3, n4, ih]
    refine ⟨by omega, by omega, by omega⟩

/-- The modelled decoder inverts standard base64 encoding. -/
theorem b64decode_encode (bs : List Nat) (h : ∀ b ∈ bs, b < 256) :
    b64decode (b64encode bs) = some bs := by
  have hd : (b64encode bs).data = b64EncodeList bs := rfl
  rw [b64decode, hd, b64Filter_encode bs h, b64DecodeGroups_encode bs h]

/-- Claim C8: for a well-formed data-URI payload — a header
"data:" ++ mime ++ ";base64" (mime free of the delimiter characters) joined
by the first comma to a standard base64 body encoding some byte sequence —
save_base64_file splits header from body at that comma, derives the file
extension from the MIME type with ".bin" as the fallback for unrecognized
types, writes under the destination directory a file whose bytes are
exactly the base64-decoding of the body, and returns that file's path. -/
theorem save_base64_file_wellformed (uuid mime dir : String) (bytes : List Nat)
    (fs : FsState) (hbytes : ∀ b ∈ bytes, b < 256)
    (hm1 : ',' ∉ mime.data) (hm2 : ':' ∉ mime.data) (hm3 : ';' ∉ mime.data) :
    save_base64_file uuid ("data:" ++ mime ++ ";base64," ++ b64encode bytes) dir fs =
      .ok (posixJoin dir (uuid ++ (guess_extension mime).getD ".bin"),
        FsState.mk ((posixJoin dir (uuid ++ (guess_extension mime).getD ".bin"), bytes)
          :: fs.files)) := by
  have hcomma1 : ',' ∉ ("data:".data ++ mime.data ++ ";base64".data) := by
    simp only [List.mem_append, not_or]
    refine ⟨⟨by decide, hm1⟩, by decide⟩
  have hpay : ("data:" ++ mime ++ ";base64," ++ b64encode bytes).data
      = ("data:".data ++ mime.data ++ ";base64".data) ++ ',' :: (b64encode bytes).data := by
    simp only [strData_append, List.append_assoc, List.cons_append, List.nil_append]
  have hsplit : splitFirst ',' ("data:" ++ mime ++ ";base64," ++ b64encode bytes)
      = some (String.mk ("data:".data ++ mime.data ++ ";base64".data), b64encode bytes) := by
    rw [splitFirst, hpay, splitFirstAux_append hcomma1]
    simp [strMk_data]
  have hshape : "data:".data ++ mime.data ++ ";base64".data
      = ['d', 'a', 't', 'a'] ++ ':' :: (mime.data ++ ";base64".data) := by
    simp [List.append_assoc]
  have hnc2 : ':' ∉ mime.data ++ ";base64".data := by
    simp only [List.mem_append, not_or]
    exact ⟨hm2, by decide⟩
  have hheader : splitIndexOne ':' (String.mk ("data:".data ++ mime.data ++ ";base64".data))
      = some (String.mk (mime.data ++ ";base64".data)) := by
    rw [splitIndexOne, splitFirst]
    have hd : (String.mk ("data:".data ++ mime.data ++ ";base64".data)).data
        = ['d', 'a', 't', 'a'] ++ ':' :: (mime.data ++ ";base64".data) := hshape
    rw [hd, splitFirstAux_append (by decide)]
    have ht : takeUntil ':' (String.mk (mime.data ++ ";base64".data))
        = String.mk (mime.data ++ ";base64".data) := takeUntil_of_not_mem hnc2
    simp [ht]
  have hmime : takeUntil ';' (String.mk (mime.data ++ ";base64".data)) = mime := by
    rw [takeUntil, splitFirst]
    have hd : (String.mk (mime.data ++ ";base64".data)).data
        = mime.data ++ ';' :: "base64".data := rfl
    rw [hd, splitFirstAux_append hm3]
    simp [strMk_data]
  have hb : b64decode (b64encode bytes) = some bytes := b64decode_encode bytes hbytes
  rw [save_base64_file, hsplit]
  simp only [hheader, hmime, hb]

/-- Witness for Claim C8 at a concrete payload: the bytes [72, 105]
("Hi") encode as "SGk=", the payload "data:image/png;base64,SGk=" is stored
as ./uploads/images/u1.png with exactly those bytes, and that path is
returned. -/
theorem save_base64_file_wellformed_app :
    save_base64_file "u1" ("data:" ++ "image/png" ++ ";base64," ++ b64encode [72, 105])
        "./uploads/images" (FsState.mk []) =
      .ok ("./uploads/images/u1.png",
        FsState.mk [("./uploads/images/u1.png", [72, 105])]) := by
  rw [save_base64_file_wellformed "u1" "image/png" "./uploads/images" [72, 105]
    (FsState.mk []) (by decide) (by decide) (by decide) (by decide)]
  rfl

/-- Shape of a truthy media payload with no comma separator (the malformed
inputs Claim C1 quantifies over). -/
def MalformedNoComma (m : Option String) : Prop :=
  ∃ s, m = some s ∧ s ≠ "" ∧ ',' ∉ s.data

theorem processMedia_noComma {u dir : String} {fs : FsState} {s : String}
    (hne : s ≠ "") (hc : ',' ∉ s.data) :
    processMedia u (some s) dir fs
      = .error "Error procesando archivo: not enough values to unpack (expected 2, got 1)" := by
  rw [processMedia, if_neg hne, save_base64_file, splitFirst_of_not_mem hc]

/-- Claim C1: a submission whose embedded media payload is truthy but has no
comma separator fails with a client error (HTTP 400) and leaves the report
store exactly as it was: no report row is added. -/
theorem create_malformed_media_fails (gen : Nat → String) (n : Nat)
    (inc : IncidenciaCreate) (db : DbState) (fs : FsState)
    (h : MalformedNoComma inc.imagen ∨ MalformedNoComma inc.video
      ∨ MalformedNoComma inc.audio) :
    (∃ e, (create_incidencia gen n inc db fs).1 = .error e)
    ∧ (create_incidencia gen n inc db fs).2.1 = db := by
  rcases h with ⟨s, hs, hne, hc⟩ | ⟨s, hs, hne, hc⟩ | ⟨s, hs, hne, hc⟩
  · simp only [create_incidencia, hs, processMedia_noComma hne hc]
    exact ⟨⟨_, rfl⟩, trivial⟩
  · cases h1 : processMedia (gen n) inc.imagen (posixJoin UPLOAD_DIR "images") fs with
    | error e =>
      simp only [create_incidencia, h1]
      exact ⟨⟨e, rfl⟩, trivial⟩
    | ok ri =>
      simp only [create_incidencia, h1, hs, processMedia_noComma hne hc]
      exact ⟨⟨_, rfl⟩, trivial⟩
  · cases h1 : processMedia (gen n) inc.imagen (posixJoin UPLOAD_DIR "images") fs with
    | error e =>
      simp only [create_incidencia, h1]
      exact ⟨⟨e, rfl⟩, trivial⟩
    | ok ri =>
      cases h2 : processMedia (gen (n + 1)) inc.video (posixJoin UPLOAD_DIR "videos") ri.2 with
      | error e =>
        simp only [create_incidencia, h1, h2]
        exact ⟨⟨e, rfl⟩, trivial⟩
      | ok rv =>
        simp only [create_incidencia, h1, h2, hs, processMedia_noComma hne hc]
        exact ⟨⟨_, rfl⟩, trivial⟩

/-- Witness for Claim C1: a concrete submission carrying the comma-free
image payload "xyz" against a one-row store fails and leaves that store
unchanged. -/
theorem create_malformed_media_fails_app :
    (∃ e, (create_incidencia (fun k => toString k) 0
      (mkIncidenciaCreate ⟨2024, 1, 1⟩ "u1" "c1" "s1" "a1" "d1" none (some "xyz") none none none)
      (DbState.mk [sampleInc "i1" "7"]) (FsState.mk [])).1 = .error e)
    ∧ (create_incidencia (fun k => toString k) 0
      (mkIncidenciaCreate ⟨2024, 1, 1⟩ "u1" "c1" "s1" "a1" "d1" none (some "xyz") none none none)
      (DbState.mk [sampleInc "i1" "7"]) (FsState.mk [])).2.1
        = DbState.mk [sampleInc "i1" "7"] :=
  create_malformed_media_fails (fun k => toString k) 0
    (mkIncidenciaCreate ⟨2024, 1, 1⟩ "u1" "c1" "s1" "a1" "d1" none (some "xyz") none none none)
    (DbState.mk [sampleInc "i1" "7"]) (FsState.mk [])
    (Or.inl ⟨"xyz", rfl, by decide, by decide⟩)

/-- Claim C2 counterexample: with one stored report whose reporter is "7",
listing with the reporter filter 0 returns that report (the filter is
dropped because 0 is falsy), while the claim demands exactly the reports
whose reporter_id equals the filter — and no stored report matches 0. -/
theorem list_filter_zero_cex :
    (list_incidencias "http://h/" (some 0) (DbState.mk [sampleInc "i1" "7"])).toOption.map
        (fun l => l.map (fun v => v.id_usuario_emisor)) = some ["7"]
    ∧ (DbState.mk [sampleInc "i1" "7"]).incidencias.filter
        (fun i => i.id_usuario_emisor == toString (0 : Int)) = [] := by
  exact ⟨rfl, rfl⟩

/-- Claim C2 amended: listing without a filter returns all reports; listing
with a nonzero integer filter returns exactly the reports whose reporter id
equals the decimal text of the filter; a filter of 0 is falsy under
`if id_usuario:` and is treated as no filter, returning all reports. -/
theorem queryIncidencias_spec (db : DbState) :
    queryIncidencias none db = db.incidencias
    ∧ (∀ u : Int, u ≠ 0 → queryIncidencias (some u) db
        = db.incidencias.filter (fun i => i.id_usuario_emisor == toString u))
    ∧ queryIncidencias (some 0) db = db.incidencias := by
  refine ⟨rfl, ?_, rfl⟩
  intro u hu
  simp only [queryIncidencias, beq_iff_eq, if_neg hu]

/-- Witness for Claim C2's amended statement: the filter 5 selects exactly
the report whose reporter id is "5" out of a two-report store. -/
theorem queryIncidencias_spec_app :
    queryIncidencias (some 5) (DbState.mk [sampleInc "i1" "5", sampleInc "i2" "7"])
      = [sampleInc "i1" "5"] := by
  rw [(queryIncidencias_spec (DbState.mk [sampleInc "i1" "5", sampleInc "i2" "7"])).2.1
    5 (by decide)]
  rfl

/-- Request draft omitting fecha_emision, validated while the import-time
date was 2024-01-01. -/
def c3Draft : IncidenciaCreate :=
  mkIncidenciaCreate ⟨2024, 1, 1⟩ "u1" "c1" "s1" "a1" "d1" none none none none none

/-- Claim C3 (code bug): the pydantic default Optional[date] = date.today()
is evaluated once at module import, so a draft omitting fecha_emision gets
the import-time date, not the date of processing.  Concretely: with the
module imported on 2024-01-01, the created report for a dateless draft
carries 2024-01-01 even when the submission is processed on 2024-01-02 —
the processing date is not even an input of the handler. -/
theorem create_date_default_is_import_time :
    ((create_incidencia (fun k => toString k) 0 c3Draft (DbState.mk [])
        (FsState.mk [])).2.1.incidencias.map (fun i => i.fecha_emision))
      = [⟨2024, 1, 1⟩]
    ∧ (⟨2024, 1, 1⟩ : PyDate) ≠ ⟨2024, 1, 2⟩ := by
  exact ⟨rfl, by decide⟩

/-- Request draft whose location map is {lat: 0, lng: -99}. -/
def c4Draft : IncidenciaCreate :=
  mkIncidenciaCreate ⟨2024, 1, 1⟩ "u1" "c1" "s1" "a1" "d1" none none none none
    (some [("lat", PyVal.vInt 0), ("lng", PyVal.vInt (-99))])

/-- Claim C4 (code bug): `str(v) if v else None` treats the falsy
coordinate 0 as absent, so the draft location {lat: 0, lng: -99} is stored
as latitude null and longitude "-99", breaking the both-non-null-or-both-null
invariant and the claimed string coercions ("0" and "-99"). -/
theorem create_zero_lat_stored_null :
    ((create_incidencia (fun k => toString k) 0 c4Draft (DbState.mk [])
        (FsState.mk [])).2.1.incidencias.map
        (fun i => (i.ubicacion_lat, i.ubicacion_lng)))
      = [(none, some "-99")] := by
  rfl

/-- Claim C6: a draft with no media attachments and a supplied (or
defaulted) submission date creates exactly one new report whose three media
reference fields are null and whose status is "pending"; all previously
stored reports keep those fields unchanged. -/
theorem create_no_media_pending (gen : Nat → String) (n : Nat)
    (inc : IncidenciaCreate) (db : DbState) (fs : FsState) (d : PyDate)
    (hi : inc.imagen = none) (hv : inc.video = none) (ha : inc.audio = none)
    (hf : inc.fecha_emision = some d) :
    (create_incidencia gen n inc db fs).1
      = .ok ("Incidencia creada correctamente", gen (n + 3))
    ∧ ((create_incidencia gen n inc db fs).2.1.incidencias.map
        (fun i => (i.imagen, i.video, i.audio, i.status)))
      = (db.incidencias.map (fun i => (i.imagen, i.video, i.audio, i.status)))
        ++ [(none, none, none, "pending")] := by
  simp only [create_incidencia, hi, hv, ha, hf, processMedia]
  simp

/-- Request draft with no media and no explicit date, validated with
import-time date 2024-01-01. -/
def c6Draft : IncidenciaCreate :=
  mkIncidenciaCreate ⟨2024, 1, 1⟩ "u1" "c1" "s1" "a1" "d1" none none none none none

/-- Witness for Claim C6 on a concrete empty store. -/
theorem create_no_media_pending_app :
    (create_incidencia (fun k => toString k) 0 c6Draft (DbState.mk []) (FsState.mk [])).1
      = .ok ("Incidencia creada correctamente", "3")
    ∧ ((create_incidencia (fun k => toString k) 0 c6Draft (DbState.mk [])
        (FsState.mk [])).2.1.incidencias.map
        (fun i => (i.imagen, i.video, i.audio, i.status)))
      = [(none, none, none, "pending")] := by
  have h := create_no_media_pending (fun k => toString k) 0 c6Draft (DbState.mk [])
    (FsState.mk []) ⟨2024, 1, 1⟩ rfl rfl rfl rfl
  exact ⟨by rw [h.1]; rfl, by rw [h.2]; rfl⟩

theorem map_upd_of_no_match (id new : String) :
    ∀ l : List Incidencia, (∀ i ∈ l, i.id_incidencia ≠ id) →
      l.map (fun i => if i.id_incidencia = id then { i with status := new } else i) = l := by
  intro l h
  induction l with
  | nil => rfl
  | cons x xs ih =>
    simp only [List.map_cons, if_neg (h x (by simp)), List.cons.injEq, true_and]
    exact ih (fun i hi => h i (by simp [hi]))

theorem setStatusFirst_eq_map (id new : String) :
    ∀ l : List Incidencia, (l.map (fun i => i.id_incidencia)).Nodup →
      (∃ r ∈ l, r.id_incidencia = id) →
      setStatusFirst id new l
        = l.map (fun i => if i.id_incidencia = id then { i with status := new } else i) := by
  intro l hnd hex
  induction l with
  | nil => rcases hex with ⟨r, hr, _⟩; exact absurd hr (List.not_mem_nil r)
  | cons x xs ih =>
    simp only [List.map_cons, List.nodup_cons] at hnd
    by_cases hx : x.id_incidencia = id
    · have hrest : ∀ i ∈ xs, i.id_incidencia ≠ id := by
        intro i hi he
        apply hnd.1
        rw [hx, ← he]
        exact List.mem_map_of_mem _ hi
      simp only [setStatusFirst, if_pos hx, List.map_cons, if_pos hx, List.cons.injEq, true_and]
      exact (map_upd_of_no_match id new xs hrest).symm
    · have hex2 : ∃ r ∈ xs, r.id_incidencia = id := by
        rcases hex with ⟨r, hr, hid⟩
        rcases List.mem_cons.mp hr with he | hm
        · exact absurd (he ▸ hid) hx
        · exact ⟨r, hm, hid⟩
      simp only [setStatusFirst, if_neg hx, List.map_cons, if_neg hx, List.cons.injEq, true_and]
      exact ih hnd.2 hex2

/-- Claim C5: with distinct stored ids, updating the status of an existing
report id succeeds and maps the store pointwise — the matched report gets
exactly its status field replaced by the supplied string and keeps every
other field, every other report is returned untouched; updating an id not
in the store yields the not-found error and leaves the store unchanged. -/
theorem update_status_frame (id new : String) (db : DbState)
    (hnd : (db.incidencias.map (fun i => i.id_incidencia)).Nodup) :
    ((∃ r ∈ db.incidencias, r.id_incidencia = id) →
      update_incidencia_status id new db
        = (.ok ("Estado de incidencia cambiado a " ++ new),
          DbState.mk (db.incidencias.map
            (fun i => if i.id_incidencia = id then { i with status := new } else i))))
    ∧ ((∀ r ∈ db.incidencias, r.id_incidencia ≠ id) →
      update_incidencia_status id new db = (.error "Incidencia no encontrada", db)) := by
  constructor
  · intro hex
    have hsome : (db.incidencias.find? (fun i => i.id_incidencia == id)).isSome := by
      rw [List.find?_isSome]
      rcases hex with ⟨r, hr, hid⟩
      exact ⟨r, hr, by simp [hid]⟩
    obtain ⟨x, hx⟩ := Option.isSome_iff_exists.mp hsome
    simp only [update_incidencia_status, hx]
    rw [setStatusFirst_eq_map id new db.incidencias hnd hex]
  · intro hall
    have hnone : db.incidencias.find? (fun i => i.id_incidencia == id) = none := by
      rw [List.find?_eq_none]
      intro x hx
      simp [hall x hx]
    simp only [update_incidencia_status, hnone]

/-- Witness for Claim C5: updating report "a" to status "done" in a
two-report store rewrites only that report's status. -/
theorem update_status_frame_app :
    update_incidencia_status "a" "done" (DbState.mk [sampleInc "a" "1", sampleInc "b" "2"])
      = (.ok "Estado de incidencia cambiado a done",
        DbState.mk [{ sampleInc "a" "1" with status := "done" }, sampleInc "b" "2"]) := by
  rw [(update_status_frame "a" "done" (DbState.mk [sampleInc "a" "1", sampleInc "b" "2"])
    (by decide)).1 ⟨sampleInc "a" "1", by simp, rfl⟩]
  rfl

/-- Stored report whose coordinates are the unparseable "abc" and "1.0". -/
def c7Inc : Incidencia :=
  { sampleInc "i1" "7" with ubicacion_lat := some "abc", ubicacion_lng := some "1.0" }

/-- Claim C7 counterexample: a stored report can carry a latitude that does
not parse as a float (a creation with location {lat: "abc", lng: "1.0"}
stores exactly those strings), and listing such a store does not return a
view with a null location — float("abc") raises and the whole listing
fails with an error. -/
theorem list_unparseable_location_cex :
    list_incidencias "http://h/" none (DbState.mk [c7Inc])
      = .error "could not convert string to float"
    ∧ ((create_incidencia (fun k => toString k) 0
        (mkIncidenciaCreate ⟨2024, 1, 1⟩ "u1" "c1" "s1" "a1" "d1" none none none none
          (some [("lat", PyVal.vStr "abc"), ("lng", PyVal.vStr "1.0")]))
        (DbState.mk []) (FsState.mk [])).2.1.incidencias.map
        (fun i => (i.ubicacion_lat, i.ubicacion_lng)))
      = [(some "abc", some "1.0")] := by
  exact ⟨rfl, rfl⟩

/-- Claim C7 amended: the listing view reconstructs the location map only
when both stored coordinates are truthy (present and non-empty); when both
are truthy and both parse as floats the view holds the parsed values; when
both are truthy but either does not parse, the listing fails with an error
instead of yielding a null location; when either coordinate is absent or
empty the view's location is null. -/
theorem toResponse_location_spec (base : String) (inc : Incidencia) :
    ((optTruthy inc.ubicacion_lat = false ∨ optTruthy inc.ubicacion_lng = false) →
      toResponse base inc = .ok (baseResponse base inc none))
    ∧ (∀ la ln, optTruthy inc.ubicacion_lat = true → optTruthy inc.ubicacion_lng = true →
        pyFloat (inc.ubicacion_lat.getD "") = some la →
        pyFloat (inc.ubicacion_lng.getD "") = some ln →
        toResponse base inc = .ok (baseResponse base inc (some (la, ln))))
    ∧ ((pyFloat (inc.ubicacion_lat.getD "") = none
        ∨ pyFloat (inc.ubicacion_lng.getD "") = none) →
        optTruthy inc.ubicacion_lat = true → optTruthy inc.ubicacion_lng = true →
        toResponse base inc = .error "could not convert string to float") := by
  refine ⟨?_, ?_, ?_⟩
  · intro h
    rcases h with h | h <;> simp [toResponse, h]
  · intro la ln h1 h2 hla hln
    simp [toResponse, h1, h2, hla, hln]
  · intro h h1 h2
    cases hla : pyFloat (inc.ubicacion_lat.getD "") with
    | none => simp [toResponse, h1, h2, hla]
    | some la =>
      rcases h with h | h
      · exact absurd (hla.symm.trans h) (by simp)
      · simp [toResponse, h1, h2, hla, h]

/-- Stored report with parseable coordinates "19.4" and "-99.1". -/
def c7IncB : Incidencia :=
  { sampleInc "i2" "8" with ubicacion_lat := some "19.4", ubicacion_lng := some "-99.1" }

/-- Witness for Claim C7's amended statement: both coordinates parse, and
the view holds the parsed values 19.4 and -99.1. -/
theorem toResponse_location_spec_app :
    toResponse "http://h/" c7IncB
      = .ok (baseResponse "http://h/" c7IncB
          (some (PyFloatVal.finite ((97 : Rat) / 5), PyFloatVal.finite ((-991 : Rat) / 10)))) := by
  have hla : pyFloat (c7IncB.ubicacion_lat.getD "")
      = some (PyFloatVal.finite ((97 : Rat) / 5)) := by
    have h1 : pyFloat (c7IncB.ubicacion_lat.getD "")
        = some (PyFloatVal.finite (((194 : Nat) : Rat) / (10 : Rat) ^ 1)) := rfl
    have h2 : ((194 : Nat) : Rat) / (10 : Rat) ^ 1 = (97 : Rat) / 5 := by norm_num
    rw [h1, h2]
  have hln : pyFloat (c7IncB.ubicacion_lng.getD "")
      = some (PyFloatVal.finite ((-991 : Rat) / 10)) := by
    have h1 : pyFloat (c7IncB.ubicacion_lng.getD "")
        = some (PyFloatVal.finite (-(((991 : Nat) : Rat) / (10 : Rat) ^ 1))) := rfl
    have h2 : -(((991 : Nat) : Rat) / (10 : Rat) ^ 1) = (-991 : Rat) / 10 := by norm_num
    rw [h1, h2]
  exact (toResponse_location_spec "http://h/" c7IncB).2.1 _ _ rfl rfl hla hln

/-- Claim C9 counterexample: the status-update endpoint accepts the empty
string and stores it verbatim, so after updating an existing report with
status "" the store holds a report whose status is empty, and the update
reports success. -/
theorem update_empty_status_cex :
    ((update_incidencia_status "i1" "" (DbState.mk [sampleInc "i1" "7"])).2.incidencias.map
      (fun i => i.status)) = [""]
    ∧ (update_incidencia_status "i1" "" (DbState.mk [sampleInc "i1" "7"])).1
      = .ok "Estado de incidencia cambiado a " := by
  exact ⟨rfl, rfl⟩

theorem create_db_cases (gen : Nat → String) (n : Nat) (inc : IncidenciaCreate)
    (db : DbState) (fs : FsState) :
    (create_incidencia gen n inc db fs).2.1 = db
    ∨ ∃ r, (create_incidencia gen n inc db fs).2.1.incidencias = db.incidencias ++ [r]
        ∧ r.status = "pending" := by
  cases h1 : processMedia (gen n) inc.imagen (posixJoin UPLOAD_DIR "images") fs with
  | error e => left; simp only [create_incidencia, h1]
  | ok ri =>
    cases h2 : processMedia (gen (n + 1)) inc.video (posixJoin UPLOAD_DIR "videos") ri.2 with
    | error e => left; simp only [create_incidencia, h1, h2]
    | ok rv =>
      cases h3 : processMedia (gen (n + 2)) inc.audio (posixJoin UPLOAD_DIR "audios") rv.2 with
      | error e => left; simp only [create_incidencia, h1, h2, h3]
      | ok ra =>
        cases h4 : inc.fecha_emision with
        | none => left; simp only [create_incidencia, h1, h2, h3, h4]
        | some fecha =>
          right
          simp only [create_incidencia, h1, h2, h3, h4]
          exact ⟨_, rfl, rfl⟩

theorem mem_setStatusFirst {id new : String} :
    ∀ {l : List Incidencia} {i : Incidencia}, i ∈ setStatusFirst id new l →
      i.status = new ∨ i ∈ l := by
  intro l
  induction l with
  | nil => intro i hi; exact absurd hi (List.not_mem_nil i)
  | cons x xs ih =>
    intro i hi
    by_cases hx : x.id_incidencia = id
    · rw [setStatusFirst, if_pos hx] at hi
      rcases List.mem_cons.mp hi with he | hm
      · left; rw [he]
      · right; exact List.mem_cons_of_mem x hm
    · rw [setStatusFirst, if_neg hx] at hi
      rcases List.mem_cons.mp hi with he | hm
      · right; rw [he]; exact List.mem_cons_self x xs
      · rcases ih hm with h | h
        · left; exact h
        · right; exact List.mem_cons_of_mem x h

/-- Claim C9 amended: creation always stores status "pending", and a status
update stores the supplied string verbatim, so every operation preserves
non-emptiness of every stored status provided the new status supplied to an
update is itself non-empty (an empty supplied status is stored as such). -/
theorem status_nonempty_preserved (gen : Nat → String) (n : Nat)
    (inc : IncidenciaCreate) (db : DbState) (fs : FsState) (id new : String)
    (hdb : db.incidencias.all (fun i => i.status != "") = true) :
    (create_incidencia gen n inc db fs).2.1.incidencias.all
      (fun i => i.status != "") = true
    ∧ ((new != "") = true →
      (update_incidencia_status id new db).2.incidencias.all
        (fun i => i.status != "") = true) := by
  constructor
  · rcases create_db_cases gen n inc db fs with h | ⟨r, h, hr⟩
    · rw [h]
      exact hdb
    · rw [h, List.all_append, hdb]
      simp [hr]
  · intro hnew
    cases hfind : db.incidencias.find? (fun i => i.id_incidencia == id) with
    | none =>
      simp only [update_incidencia_status, hfind]
      exact hdb
    | some x =>
      simp only [update_incidencia_status, hfind]
      rw [List.all_eq_true] at hdb ⊢
      intro i hi
      rcases mem_setStatusFirst hi with h | h
      · simpa [h] using hnew
      · exact hdb i h

/-- Witness for Claim C9's amended statement on a concrete store: creating
a report and (separately) updating with the non-empty status "done" both
leave every stored status non-empty. -/
theorem status_nonempty_preserved_app :
    (create_incidencia (fun k => toString k) 0 c6Draft (DbState.mk [sampleInc "i1" "7"])
      (FsState.mk [])).2.1.incidencias.all (fun i => i.status != "") = true
    ∧ (update_incidencia_status "i1" "done"
        (DbState.mk [sampleInc "i1" "7"])).2.incidencias.all
        (fun i => i.status != "") = true := by
  have h := status_nonempty_preserved (fun k => toString k) 0 c6Draft
    (DbState.mk [sampleInc "i1" "7"]) (FsState.mk []) "i1" "done" (by decide)
  exact ⟨h.1, h.2 (by decide)⟩

/-- Request draft whose three media fields are present but empty strings. -/
def c10Draft : IncidenciaCreate :=
  mkIncidenciaCreate ⟨2024, 1, 1⟩ "u1" "c1" "s1" "a1" "d1" none
    (some "") (some "") (some "") none

/-- Claim C10: a media field that is present but equal to the empty string
is falsy under `if incidencia.<field>:`, so the decoder is never invoked
for it (the filesystem is untouched and no uuid is consumed for it), the
corresponding reference field stays null, and the submission succeeds. -/
theorem empty_media_treated_as_absent :
    (∀ (u dir : String) (fs : FsState), processMedia u (some "") dir fs = .ok (none, fs))
    ∧ (create_incidencia (fun k => toString k) 0 c10Draft (DbState.mk [])
        (FsState.mk [])).1 = .ok ("Incidencia creada correctamente", "3")
    ∧ ((create_incidencia (fun k => toString k) 0 c10Draft (DbState.mk [])
        (FsState.mk [])).2.1.incidencias.map
        (fun i => (i.imagen, i.video, i.audio))) = [(none, none, none)]
    ∧ (create_incidencia (fun k => toString k) 0 c10Draft (DbState.mk [])
        (FsState.mk [])).2.2 = FsState.mk [] := by
  exact ⟨fun u dir fs => rfl, rfl, rfl, rfl⟩
